import Mathlib

/-!
# Verification of the pixiv request-builder core (`src/lib.rs`)

A shallow embedding of the typed request-builder and query-encoding
subsystem.  Rust strings are modelled as their byte sequences
(`List Nat`, every byte `< 256` for well-formed data), since the
form-urlencoding performed by `serde_urlencoded` operates on UTF-8 bytes.
`HashMap<&'static str, String>` is modelled as an association list with
`HashMap::insert` semantics (replace the binding if the key is present,
append otherwise); the list order stands in for one possible map
iteration order.
-/

set_option autoImplicit false
set_option maxRecDepth 8192

namespace Pixiv

/-- A Rust string, as its sequence of UTF-8 bytes. -/
abbrev RStr := List Nat

/-- Bytes of an ASCII Lean string literal (used for the literals of `lib.rs`). -/
def ascii (s : String) : RStr := s.toList.map Char.toNat

/-- `usize::to_string`: decimal rendering of an unsigned integer, as bytes. -/
def natToBytes (n : Nat) : RStr := (Nat.toDigits 10 n).map Char.toNat

/-- The HTTP methods used by the endpoint catalog (`http::Method`). -/
inductive Method where
  | GET
  | POST
  | DELETE
deriving DecidableEq

/-- `http::Uri`, reduced to the components the core manipulates:
scheme and authority (never touched after construction), the path
component, and the optional query component of `path_and_query`. -/
structure Uri where
  scheme : String
  host : String
  path : RStr
  query : Option RStr
deriving DecidableEq

/-- `PixivRequest`: method, url and headers (headers as an association
list of name/value pairs). -/
structure PixivRequest where
  method : Method
  url : Uri
  headers : List (String × String)
deriving DecidableEq

/-- First value bound to a header name, if any. -/
def getHeader (hs : List (String × String)) (k : String) : Option String :=
  match hs with
  | [] => none
  | p :: rest => if p.1 = k then some p.2 else getHeader rest k

/-! ## The parameter map (`HashMap<&'static str, String>`) -/

/-- `HashMap::insert`: replace the binding in place when the key is
already present, append the new binding otherwise. -/
def insertParam : List (RStr × RStr) → RStr → RStr → List (RStr × RStr)
  | [], k, v => [(k, v)]
  | p :: rest, k, v =>
      if p.1 = k then (k, v) :: rest else p :: insertParam rest k v

/-- `HashMap::get`: the value bound to a key, if any. -/
def getParam (m : List (RStr × RStr)) (k : RStr) : Option RStr :=
  match m with
  | [] => none
  | p :: rest => if p.1 = k then some p.2 else getParam rest k

/-- How many entries of the map carry the given key. -/
def countKey : List (RStr × RStr) → RStr → Nat
  | [], _ => 0
  | p :: rest, k => (if p.1 = k then 1 else 0) + countKey rest k

/-- Every byte of the string is an actual byte (`< 256`). -/
def WFStr (s : RStr) : Prop := ∀ b ∈ s, b < 256

/-- Every key and value of the map is made of actual bytes. -/
def WFParams (m : List (RStr × RStr)) : Prop :=
  ∀ p ∈ m, WFStr p.1 ∧ WFStr p.2

/-- The keys of the map are pairwise distinct (a `HashMap` invariant). -/
def KeysNodup (m : List (RStr × RStr)) : Prop :=
  (m.map Prod.fst).Nodup

instance (s : RStr) : Decidable (WFStr s) := by
  unfold WFStr; infer_instance

instance (m : List (RStr × RStr)) : Decidable (WFParams m) := by
  unfold WFParams; infer_instance

instance (m : List (RStr × RStr)) : Decidable (KeysNodup m) := by
  unfold KeysNodup; infer_instance

/-! ## Query encoding (`serde_urlencoded::to_string`)

`serde_urlencoded` serialises a string map with the `url` crate's
form-urlencoding: bytes that are alphanumeric or one of `*-._` pass
through, the space byte becomes `+`, and every other byte becomes
`%XX` with uppercase hexadecimal digits; pairs are rendered as
`key=value` and joined by `&`. -/

/-- Bytes passed through unchanged by the form-urlencoded byte serializer. -/
def isSafeByte (b : Nat) : Bool :=
  (48 ≤ b && b ≤ 57) || (65 ≤ b && b ≤ 90) || (97 ≤ b && b ≤ 122) ||
    b == 42 || b == 45 || b == 46 || b == 95

/-- Uppercase hexadecimal digit for a value `< 16`. -/
def hexDigit (n : Nat) : Nat := if n < 10 then 48 + n else 55 + n

/-- Form-urlencoding of one byte. -/
def encByte (b : Nat) : List Nat :=
  if isSafeByte b then [b]
  else if b = 32 then [43]
  else [37, hexDigit (b / 16), hexDigit (b % 16)]

/-- Form-urlencoding of a byte string. -/
def encBytes (s : RStr) : RStr := s.flatMap encByte

/-- One `key=value` pair of the query string (61 is `=`). -/
def encodePair (p : RStr × RStr) : RStr := encBytes p.1 ++ 61 :: encBytes p.2

/-- The pairs of the map rendered and joined by `&` (byte 38). -/
def encodeQuery : List (RStr × RStr) → RStr
  | [] => []
  | [p] => encodePair p
  | p :: rest => encodePair p ++ 38 :: encodeQuery rest

/-! ## Standard query-string parsing (the decoding direction) -/

/-- Value of one hexadecimal digit byte. -/
def hexVal (c : Nat) : Option Nat :=
  if 48 ≤ c ∧ c ≤ 57 then some (c - 48)
  else if 65 ≤ c ∧ c ≤ 70 then some (c - 55)
  else if 97 ≤ c ∧ c ≤ 102 then some (c - 87)
  else none

/-- Percent-decoding: `+` becomes space, `%XX` becomes the byte `XX`,
anything else passes through. -/
def decBytes : RStr → Option RStr
  | [] => some []
  | c :: cs =>
      if c = 43 then (decBytes cs).map (fun r => 32 :: r)
      else if c = 37 then
        match cs with
        | a :: b :: rest =>
            match hexVal a, hexVal b with
            | some ha, some hb => (decBytes rest).map (fun r => (16 * ha + hb) :: r)
            | _, _ => none
        | _ => none
      else (decBytes cs).map (fun r => c :: r)

/-- Split a byte string at every occurrence of a separator byte. -/
def splitSep (sep : Nat) : RStr → List RStr
  | [] => [[]]
  | c :: cs =>
      if c = sep then [] :: splitSep sep cs
      else
        match splitSep sep cs with
        | [] => [[c]]
        | p :: ps => (c :: p) :: ps

/-- Split at the first occurrence of a separator byte. -/
def splitFirst (sep : Nat) : RStr → Option (RStr × RStr)
  | [] => none
  | c :: cs =>
      if c = sep then some ([], cs)
      else (splitFirst sep cs).map (fun q => (c :: q.1, q.2))

/-- Parse one `key=value` piece of a query string. -/
def parsePair (piece : RStr) : Option (RStr × RStr) :=
  match splitFirst 61 piece with
  | none => none
  | some (k, v) =>
      match decBytes k, decBytes v with
      | some dk, some dv => some (dk, dv)
      | _, _ => none

/-- Parse every piece, failing if any piece fails. -/
def parsePairs : List RStr → Option (List (RStr × RStr))
  | [] => some []
  | p :: ps =>
      match parsePair p, parsePairs ps with
      | some kv, some rest => some (kv :: rest)
      | _, _ => none

/-- Standard query-string parsing: split on `&`, parse each
`key=value` piece, percent-decoding keys and values. -/
def decodeQuery (q : RStr) : Option (List (RStr × RStr)) :=
  if q = [] then some [] else parsePairs (splitSep 38 q)

/-! ## Enumerated option values -/

/-- `Publicity`. -/
inductive Publicity where
  | Public
  | Private
deriving DecidableEq

/-- `Publicity::as_str`. -/
def Publicity.as_str : Publicity → RStr
  | Publicity.Public => ascii ("public")
  | Publicity.Private => ascii ("private")

/-- `RankingType`. -/
inductive RankingType where
  | All
  | Illust
  | Manga
  | Ugoira
deriving DecidableEq

/-- `RankingType::as_str`. -/
def RankingType.as_str : RankingType → RStr
  | RankingType.All => ascii ("all")
  | RankingType.Illust => ascii ("illust")
  | RankingType.Manga => ascii ("manga")
  | RankingType.Ugoira => ascii ("ugoira")

/-- `RankingMode`. -/
inductive RankingMode where
  | Daily
  | Weekly
  | Monthly
  | Rookie
  | Original
  | Male
  | Female
  | DailyR18
  | WeeklyR18
  | MaleR18
  | FemaleR18
  | R18G
deriving DecidableEq

/-- `RankingMode::as_str`. -/
def RankingMode.as_str : RankingMode → RStr
  | RankingMode.Daily => ascii ("daily")
  | RankingMode.Weekly => ascii ("weekly")
  | RankingMode.Monthly => ascii ("monthly")
  | RankingMode.Rookie => ascii ("rookie")
  | RankingMode.Original => ascii ("original")
  | RankingMode.Male => ascii ("male")
  | RankingMode.Female => ascii ("female")
  | RankingMode.DailyR18 => ascii ("daily_r18")
  | RankingMode.WeeklyR18 => ascii ("weekly_r18")
  | RankingMode.MaleR18 => ascii ("male_r18")
  | RankingMode.FemaleR18 => ascii ("female_r18")
  | RankingMode.R18G => ascii ("r18g")

/-- `SearchPeriod`. -/
inductive SearchPeriod where
  | All
  | Day
  | Week
  | Month
deriving DecidableEq

/-- `SearchPeriod::as_str`. -/
def SearchPeriod.as_str : SearchPeriod → RStr
  | SearchPeriod.All => ascii ("all")
  | SearchPeriod.Day => ascii ("day")
  | SearchPeriod.Week => ascii ("week")
  | SearchPeriod.Month => ascii ("month")

/-- `SearchMode`. -/
inductive SearchMode where
  | Text
  | Tag
  | ExactTag
  | Caption
deriving DecidableEq

/-- `SearchMode::as_str`. -/
def SearchMode.as_str : SearchMode → RStr
  | SearchMode.Text => ascii ("text")
  | SearchMode.Tag => ascii ("tag")
  | SearchMode.ExactTag => ascii ("exact_tag")
  | SearchMode.Caption => ascii ("caption")

/-- `SearchOrder`. -/
inductive SearchOrder where
  | Descending
  | Ascending
deriving DecidableEq

/-- `SearchOrder::as_str`. -/
def SearchOrder.as_str : SearchOrder → RStr
  | SearchOrder.Descending => ascii ("desc")
  | SearchOrder.Ascending => ascii ("asc")

/-! ## Helpers from collaborating crates -/

/-- Modelled from the spec: `utils::comma_delimited` (`src/utils.rs` is
absent from the sources).  The spec describes it as the elements
"joined with `,`, preserving caller-supplied order, with no trailing
delimiter, and an empty list renders as an empty string" (byte 44 is
the comma). -/
def comma_delimited : List RStr → RStr
  | [] => []
  | [x] => x
  | x :: rest => x ++ 44 :: comma_delimited rest

/-- Whether the year is a leap year of the proleptic Gregorian calendar. -/
def isLeapYear (y : Nat) : Bool :=
  (y % 4 == 0 && y % 100 != 0) || y % 400 == 0

/-- Number of days of a month. -/
def daysInMonth (y m : Nat) : Nat :=
  if m = 2 then (if isLeapYear y then 29 else 28)
  else if m = 4 ∨ m = 6 ∨ m = 9 ∨ m = 11 then 30
  else 31

/-- Accumulate a leading run of decimal-digit bytes: value so far,
count of digits consumed, and the remaining input. -/
def digitsAux : RStr → Nat → Nat → (Nat × Nat × RStr)
  | [], acc, len => (acc, len, [])
  | c :: cs, acc, len =>
      if 48 ≤ c ∧ c ≤ 57 then digitsAux cs (acc * 10 + (c - 48)) (len + 1)
      else (acc, len, c :: cs)

/-- Value of a nonempty leading decimal run and the remaining input. -/
def parseDigits (s : RStr) : Option (Nat × RStr) :=
  match digitsAux s 0 0 with
  | (_, 0, _) => none
  | (n, _, rest) => some (n, rest)

/-- Model of `chrono::NaiveDate::parse_from_str(value, "%Y-%m-%d")`
(an external crate): digits for the year, a literal `-` (byte 45),
one or two digits for the month, `-`, one or two digits for the day,
the whole input consumed, with no zero-padding requirement, and the
triple must be a valid proleptic-Gregorian calendar date. -/
def parseDate (s : RStr) : Option (Nat × Nat × Nat) :=
  match parseDigits s with
  | none => none
  | some (y, rest) =>
      match rest with
      | 45 :: rest2 =>
          match parseDigits rest2 with
          | none => none
          | some (m, rest3) =>
              match rest3 with
              | 45 :: rest4 =>
                  match parseDigits rest4 with
                  | none => none
                  | some (d, rest5) =>
                      if rest5 = [] ∧ 1 ≤ m ∧ m ≤ 12 ∧ 1 ≤ d ∧ d ≤ daysInMonth y m
                      then some (y, m, d) else none
              | _ => none
      | _ => none

/-! ## `PixivRequest::set_query_params` and the builder -/

/-- `PixivRequest::set_query_params`: re-render `path_and_query` as
`path?query` where `query` is the url-encoding of the parameter map
(the path component is kept, a pre-existing query is discarded). -/
def PixivRequest.set_query_params (r : PixivRequest)
    (ps : List (RStr × RStr)) : PixivRequest :=
  { r with url := { r.url with query := some (encodeQuery ps) } }

/-- `PixivRequestBuilder`: a request plus the accumulated parameter map. -/
structure PixivRequestBuilder where
  request : PixivRequest
  params : List (RStr × RStr)
deriving DecidableEq

namespace PixivRequestBuilder

/-- `PixivRequestBuilder::new`: seeds the headers with the fixed referer. -/
def new (m : Method) (url : Uri) (ps : List (RStr × RStr)) : PixivRequestBuilder :=
  { request :=
      { method := m
        url := url
        headers := [("referer", "http://spapi.pixiv.net/")] }
    params := ps }

/-- `PixivRequestBuilder::raw_param`. -/
def raw_param (b : PixivRequestBuilder) (key value : RStr) : PixivRequestBuilder :=
  { b with params := insertParam b.params key value }

/-- `PixivRequestBuilder::page`. -/
def page (b : PixivRequestBuilder) (value : Nat) : PixivRequestBuilder :=
  b.raw_param (ascii ("page")) (natToBytes value)

/-- `PixivRequestBuilder::per_page` (the source inserts under the key
`"value"`, not `"per_page"`). -/
def per_page (b : PixivRequestBuilder) (value : Nat) : PixivRequestBuilder :=
  b.raw_param (ascii ("value")) (natToBytes value)

/-- `PixivRequestBuilder::max_id`. -/
def max_id (b : PixivRequestBuilder) (value : Nat) : PixivRequestBuilder :=
  b.raw_param (ascii ("max_id")) (natToBytes value)

/-- `PixivRequestBuilder::image_sizes`. -/
def image_sizes (b : PixivRequestBuilder) (values : List RStr) : PixivRequestBuilder :=
  b.raw_param (ascii ("image_sizes")) (comma_delimited values)

/-- `PixivRequestBuilder::profile_image_sizes`. -/
def profile_image_sizes (b : PixivRequestBuilder) (values : List RStr) : PixivRequestBuilder :=
  b.raw_param (ascii ("profile_image_sizes")) (comma_delimited values)

/-- `PixivRequestBuilder::publicity`. -/
def publicity (b : PixivRequestBuilder) (value : Publicity) : PixivRequestBuilder :=
  b.raw_param (ascii ("publicity")) value.as_str

/-- `PixivRequestBuilder::show_r18`. -/
def show_r18 (b : PixivRequestBuilder) (value : Bool) : PixivRequestBuilder :=
  if value then b.raw_param (ascii ("show_r18")) (ascii ("1"))
  else b.raw_param (ascii ("show_r18")) (ascii ("0"))

/-- `PixivRequestBuilder::include_stats`. -/
def include_stats (b : PixivRequestBuilder) (value : Bool) : PixivRequestBuilder :=
  if value then b.raw_param (ascii ("include_stats")) (ascii ("true"))
  else b.raw_param (ascii ("include_stats")) (ascii ("false"))

/-- `PixivRequestBuilder::include_sanity_level`. -/
def include_sanity_level (b : PixivRequestBuilder) (value : Bool) : PixivRequestBuilder :=
  if value then b.raw_param (ascii ("include_sanity_level")) (ascii ("true"))
  else b.raw_param (ascii ("include_sanity_level")) (ascii ("false"))

/-- `PixivRequestBuilder::ranking_mode`. -/
def ranking_mode (b : PixivRequestBuilder) (value : RankingMode) : PixivRequestBuilder :=
  b.raw_param (ascii ("mode")) value.as_str

/-- `PixivRequestBuilder::date`: validates the value with
`NaiveDate::parse_from_str(_, "%Y-%m-%d")` and panics (`expect`) when
it does not parse; panicking is modelled as `none`. -/
def date (b : PixivRequestBuilder) (value : RStr) : Option PixivRequestBuilder :=
  match parseDate value with
  | some _ => some (b.raw_param (ascii ("date")) value)
  | none => none

/-- `PixivRequestBuilder::search_period`. -/
def search_period (b : PixivRequestBuilder) (value : SearchPeriod) : PixivRequestBuilder :=
  b.raw_param (ascii ("period")) value.as_str

/-- `PixivRequestBuilder::search_mode`. -/
def search_mode (b : PixivRequestBuilder) (value : SearchMode) : PixivRequestBuilder :=
  b.raw_param (ascii ("mode")) value.as_str

/-- `PixivRequestBuilder::search_order`. -/
def search_order (b : PixivRequestBuilder) (value : SearchOrder) : PixivRequestBuilder :=
  b.raw_param (ascii ("order")) value.as_str

/-- `PixivRequestBuilder::search_sort`. -/
def search_sort (b : PixivRequestBuilder) (value : RStr) : PixivRequestBuilder :=
  b.raw_param (ascii ("sort")) value

/-- `PixivRequestBuilder::search_types`. -/
def search_types (b : PixivRequestBuilder) (values : List RStr) : PixivRequestBuilder :=
  b.raw_param (ascii ("types")) (comma_delimited values)

/-! ### The endpoint catalog -/

/-- `PixivRequestBuilder::bad_words`. -/
def bad_words : PixivRequestBuilder :=
  new Method.GET
    { scheme := "https", host := "public-api.secure.pixiv.net"
      path := ascii ("/v1.1/bad_words.json"), query := none }
    []

/-- `PixivRequestBuilder::work`. -/
def work (illust_id : Nat) : PixivRequestBuilder :=
  new Method.GET
    { scheme := "https", host := "public-api.secure.pixiv.net"
      path := ascii ("/v1/works/") ++ natToBytes illust_id ++ ascii (".json")
      query := none }
    [(ascii ("image_sizes"), ascii ("px_128x128,small,medium,large,px_480mw")),
     (ascii ("include_stats"), ascii ("true"))]

/-- `PixivRequestBuilder::user`. -/
def user (user_id : Nat) : PixivRequestBuilder :=
  new Method.GET
    { scheme := "https", host := "public-api.secure.pixiv.net"
      path := ascii ("/v1/users/") ++ natToBytes user_id ++ ascii (".json")
      query := none }
    [(ascii ("profile_image_sizes"), ascii ("px_170x170,px_50x50")),
     (ascii ("image_sizes"), ascii ("px_128x128,small,medium,large,px_480mw")),
     (ascii ("include_stats"), ascii ("1")),
     (ascii ("include_profile"), ascii ("1")),
     (ascii ("include_workspace"), ascii ("1")),
     (ascii ("include_contacts"), ascii ("1"))]

/-- `PixivRequestBuilder::feed`. -/
def feed : PixivRequestBuilder :=
  new Method.GET
    { scheme := "https", host := "public-api.secure.pixiv.net"
      path := ascii ("/v1/me/feeds.json"), query := none }
    [(ascii ("relation"), ascii ("all")),
     (ascii ("type"), ascii ("touch_nottext")),
     (ascii ("show_r18"), ascii ("1"))]

/-- `PixivRequestBuilder::favorite_works`. -/
def favorite_works : PixivRequestBuilder :=
  new Method.GET
    { scheme := "https", host := "public-api.secure.pixiv.net"
      path := ascii ("/v1/me/favorite_works.json"), query := none }
    [(ascii ("page"), ascii ("1")),
     (ascii ("per_page"), ascii ("50")),
     (ascii ("publicity"), ascii ("public")),
     (ascii ("image_sizes"), ascii ("px_128x128,px_480mw,large"))]

/-- `PixivRequestBuilder::favorite_work_add`. -/
def favorite_work_add (work_id : Nat) : PixivRequestBuilder :=
  new Method.POST
    { scheme := "https", host := "public-api.secure.pixiv.net"
      path := ascii ("/v1/me/favorite_works.json"), query := none }
    [(ascii ("publicity"), ascii ("public")),
     (ascii ("work_id"), natToBytes work_id)]

/-- `PixivRequestBuilder::favorite_works_remove`. -/
def favorite_works_remove (work_ids : List Nat) : PixivRequestBuilder :=
  new Method.DELETE
    { scheme := "https", host := "public-api.secure.pixiv.net"
      path := ascii ("/v1/me/favorite_works.json"), query := none }
    [(ascii ("publicity"), ascii ("public")),
     (ascii ("ids"), comma_delimited (work_ids.map natToBytes))]

/-- `PixivRequestBuilder::following_works`. -/
def following_works : PixivRequestBuilder :=
  new Method.GET
    { scheme := "https", host := "public-api.secure.pixiv.net"
      path := ascii ("/v1/me/following/works.json"), query := none }
    [(ascii ("page"), ascii ("1")),
     (ascii ("per_page"), ascii ("30")),
     (ascii ("image_sizes"), ascii ("px_128x128,px480mw,large")),
     (ascii ("include_stats"), ascii ("true")),
     (ascii ("include_sanity_level"), ascii ("true"))]

/-- `PixivRequestBuilder::following`. -/
def following : PixivRequestBuilder :=
  new Method.GET
    { scheme := "https", host := "public-api.secure.pixiv.net"
      path := ascii ("/v1/me/following.json"), query := none }
    [(ascii ("page"), ascii ("1")),
     (ascii ("per_page"), ascii ("30")),
     (ascii ("publicity"), ascii ("public"))]

/-- `PixivRequestBuilder::following_add`. -/
def following_add (user_id : Nat) : PixivRequestBuilder :=
  new Method.POST
    { scheme := "https", host := "public-api.secure.pixiv.net"
      path := ascii ("/v1/me/favorite-users.json"), query := none }
    [(ascii ("publicity"), ascii ("public")),
     (ascii ("target_user_id"), natToBytes user_id)]

/-- `PixivRequestBuilder::following_remove`. -/
def following_remove (user_ids : List Nat) : PixivRequestBuilder :=
  new Method.DELETE
    { scheme := "https", host := "public-api.secure.pixiv.net"
      path := ascii ("/v1/me/favorite-users.json"), query := none }
    [(ascii ("publicity"), ascii ("public")),
     (ascii ("delete_ids"), comma_delimited (user_ids.map natToBytes))]

/-- `PixivRequestBuilder::user_works`. -/
def user_works (user_id : Nat) : PixivRequestBuilder :=
  new Method.GET
    { scheme := "https", host := "public-api.secure.pixiv.net"
      path := ascii ("/v1/users/") ++ natToBytes user_id ++ ascii ("/works.json")
      query := none }
    [(ascii ("page"), ascii ("1")),
     (ascii ("per_page"), ascii ("30")),
     (ascii ("image_sizes"), ascii ("px_128x128,px480mw,large")),
     (ascii ("include_stats"), ascii ("true")),
     (ascii ("include_sanity_level"), ascii ("true"))]

/-- `PixivRequestBuilder::user_favorite_works`. -/
def user_favorite_works (user_id : Nat) : PixivRequestBuilder :=
  new Method.GET
    { scheme := "https", host := "public-api.secure.pixiv.net"
      path := ascii ("/v1/users/") ++ natToBytes user_id ++ ascii ("/favorite_works.json")
      query := none }
    [(ascii ("page"), ascii ("1")),
     (ascii ("per_page"), ascii ("30")),
     (ascii ("image_sizes"), ascii ("px_128x128,px480mw,large")),
     (ascii ("include_sanity_level"), ascii ("true"))]

/-- `PixivRequestBuilder::user_feed`. -/
def user_feed (user_id : Nat) : PixivRequestBuilder :=
  new Method.GET
    { scheme := "https", host := "public-api.secure.pixiv.net"
      path := ascii ("/v1/users/") ++ natToBytes user_id ++ ascii ("/feeds.json")
      query := none }
    [(ascii ("relation"), ascii ("all")),
     (ascii ("type"), ascii ("touch_nottext")),
     (ascii ("show_r18"), ascii ("1"))]

/-- `PixivRequestBuilder::user_following`. -/
def user_following (user_id : Nat) : PixivRequestBuilder :=
  new Method.GET
    { scheme := "https", host := "public-api.secure.pixiv.net"
      path := ascii ("/v1/users/") ++ natToBytes user_id ++ ascii ("/following.json")
      query := none }
    [(ascii ("page"), ascii ("1")),
     (ascii ("per_page"), ascii ("30"))]

/-- `PixivRequestBuilder::ranking`. -/
def ranking (ranking_type : RankingType) : PixivRequestBuilder :=
  new Method.GET
    { scheme := "https", host := "public-api.secure.pixiv.net"
      path := ascii ("/v1/ranking/") ++ ranking_type.as_str ++ ascii (".json")
      query := none }
    [(ascii ("mode"), ascii ("daily")),
     (ascii ("page"), ascii ("1")),
     (ascii ("per_page"), ascii ("50")),
     (ascii ("include_stats"), ascii ("True")),
     (ascii ("include_sanity_level"), ascii ("True")),
     (ascii ("image_sizes"), ascii ("px_128x128,small,medium,large,px_480mw")),
     (ascii ("profile_image_sizes"), ascii ("px_170x170,px_50x50"))]

/-- `PixivRequestBuilder::search_works`. -/
def search_works (query : RStr) : PixivRequestBuilder :=
  new Method.GET
    { scheme := "https", host := "public-api.secure.pixiv.net"
      path := ascii ("/v1/search/works.json"), query := none }
    [(ascii ("page"), ascii ("1")),
     (ascii ("per_page"), ascii ("30")),
     (ascii ("mode"), ascii ("text")),
     (ascii ("period"), ascii ("all")),
     (ascii ("order"), ascii ("desc")),
     (ascii ("sort"), ascii ("date")),
     (ascii ("types"), ascii ("illustration,manga,ugoira")),
     (ascii ("include_stats"), ascii ("true")),
     (ascii ("include_sanity_level"), ascii ("true")),
     (ascii ("image_sizes"), ascii ("px_128x128,px480mw,large")),
     (ascii ("q"), query)]

/-- `PixivRequestBuilder::latest_works`. -/
def latest_works : PixivRequestBuilder :=
  new Method.GET
    { scheme := "https", host := "public-api.secure.pixiv.net"
      path := ascii ("/v1/works.json"), query := none }
    [(ascii ("page"), ascii ("1")),
     (ascii ("per_page"), ascii ("30")),
     (ascii ("include_stats"), ascii ("true")),
     (ascii ("include_sanity_level"), ascii ("true")),
     (ascii ("image_sizes"), ascii ("px_128x128,px480mw,large")),
     (ascii ("profile_image_sizes"), ascii ("px_170x170,px_50x50"))]

/-- `PixivRequestBuilder::illustration`, together with the lines it
writes to standard output: the function body contains
`println!("uri:{}", uri)`, so the second component is the text printed
during the call. -/
def illustration (illust_id : Nat) : PixivRequestBuilder × List RStr :=
  (new Method.GET
    { scheme := "https", host := "app-api.pixiv.net"
      path := ascii ("/v1/illust/detail"), query := none }
    [(ascii ("illust_id"), natToBytes illust_id)],
   [ascii ("uri:https://app-api.pixiv.net/v1/illust/detail")])

/-- `PixivRequestBuilder::build`. -/
def build (b : PixivRequestBuilder) : PixivRequest :=
  b.request.set_query_params b.params

end PixivRequestBuilder

/-- One application of a non-terminal setter of `PixivRequestBuilder`
(for the fallible `date` setter, one successful application). -/
inductive IsSetterStep : PixivRequestBuilder → PixivRequestBuilder → Prop where
  | page (b : PixivRequestBuilder) (n : Nat) : IsSetterStep b (b.page n)
  | per_page (b : PixivRequestBuilder) (n : Nat) : IsSetterStep b (b.per_page n)
  | max_id (b : PixivRequestBuilder) (n : Nat) : IsSetterStep b (b.max_id n)
  | image_sizes (b : PixivRequestBuilder) (vs : List RStr) :
      IsSetterStep b (b.image_sizes vs)
  | profile_image_sizes (b : PixivRequestBuilder) (vs : List RStr) :
      IsSetterStep b (b.profile_image_sizes vs)
  | publicity (b : PixivRequestBuilder) (v : Publicity) :
      IsSetterStep b (b.publicity v)
  | show_r18 (b : PixivRequestBuilder) (v : Bool) : IsSetterStep b (b.show_r18 v)
  | include_stats (b : PixivRequestBuilder) (v : Bool) :
      IsSetterStep b (b.include_stats v)
  | include_sanity_level (b : PixivRequestBuilder) (v : Bool) :
      IsSetterStep b (b.include_sanity_level v)
  | ranking_mode (b : PixivRequestBuilder) (v : RankingMode) :
      IsSetterStep b (b.ranking_mode v)
  | date (b b2 : PixivRequestBuilder) (v : RStr) :
      b.date v = some b2 → IsSetterStep b b2
  | search_period (b : PixivRequestBuilder) (v : SearchPeriod) :
      IsSetterStep b (b.search_period v)
  | search_mode (b : PixivRequestBuilder) (v : SearchMode) :
      IsSetterStep b (b.search_mode v)
  | search_order (b : PixivRequestBuilder) (v : SearchOrder) :
      IsSetterStep b (b.search_order v)
  | search_sort (b : PixivRequestBuilder) (v : RStr) :
      IsSetterStep b (b.search_sort v)
  | search_types (b : PixivRequestBuilder) (vs : List RStr) :
      IsSetterStep b (b.search_types vs)
  | raw_param (b : PixivRequestBuilder) (k v : RStr) :
      IsSetterStep b (b.raw_param k v)

/-- Builders obtainable from the endpoint catalog: the value returned
by some catalog constructor, possibly refined by setter calls. -/
inductive Reachable : PixivRequestBuilder → Prop where
  | bad_words : Reachable PixivRequestBuilder.bad_words
  | work (n : Nat) : Reachable (PixivRequestBuilder.work n)
  | user (n : Nat) : Reachable (PixivRequestBuilder.user n)
  | feed : Reachable PixivRequestBuilder.feed
  | favorite_works : Reachable PixivRequestBuilder.favorite_works
  | favorite_work_add (n : Nat) : Reachable (PixivRequestBuilder.favorite_work_add n)
  | favorite_works_remove (ns : List Nat) :
      Reachable (PixivRequestBuilder.favorite_works_remove ns)
  | following_works : Reachable PixivRequestBuilder.following_works
  | following : Reachable PixivRequestBuilder.following
  | following_add (n : Nat) : Reachable (PixivRequestBuilder.following_add n)
  | following_remove (ns : List Nat) :
      Reachable (PixivRequestBuilder.following_remove ns)
  | user_works (n : Nat) : Reachable (PixivRequestBuilder.user_works n)
  | user_favorite_works (n : Nat) :
      Reachable (PixivRequestBuilder.user_favorite_works n)
  | user_feed (n : Nat) : Reachable (PixivRequestBuilder.user_feed n)
  | user_following (n : Nat) : Reachable (PixivRequestBuilder.user_following n)
  | ranking (t : RankingType) : Reachable (PixivRequestBuilder.ranking t)
  | search_works (q : RStr) : Reachable (PixivRequestBuilder.search_works q)
  | latest_works : Reachable PixivRequestBuilder.latest_works
  | illustration (n : Nat) : Reachable (PixivRequestBuilder.illustration n).1
  | step (b b2 : PixivRequestBuilder) :
      Reachable b → IsSetterStep b b2 → Reachable b2

/-! ## Lemmas: percent-encoding round-trip -/

theorem hexVal_hexDigit : ∀ n < 16, hexVal (hexDigit n) = some n := by decide

theorem amp_not_mem_encByte : ∀ b < 256, 38 ∉ encByte b := by decide

theorem eq_not_mem_encByte : ∀ b < 256, 61 ∉ encByte b := by decide

theorem decBytes_cons (c : Nat) (cs : RStr) :
    decBytes (c :: cs) =
      (if c = 43 then (decBytes cs).map (fun r => 32 :: r)
      else if c = 37 then
        match cs with
        | a :: b :: rest =>
            match hexVal a, hexVal b with
            | some ha, some hb => (decBytes rest).map (fun r => (16 * ha + hb) :: r)
            | _, _ => none
        | _ => none
      else (decBytes cs).map (fun r => c :: r)) := by
  conv_lhs => rw [decBytes.eq_def]
  rfl

theorem decBytes_encByte (b : Nat) (hb : b < 256) (t : RStr) :
    decBytes (encByte b ++ t) = (decBytes t).map (fun r => b :: r) := by
  unfold encByte
  by_cases hs : isSafeByte b = true
  · rw [if_pos hs]
    have h43 : ¬ b = 43 := by
      unfold isSafeByte at hs
      simp only [Bool.or_eq_true, Bool.and_eq_true, decide_eq_true_eq, beq_iff_eq] at hs
      omega
    have h37 : ¬ b = 37 := by
      unfold isSafeByte at hs
      simp only [Bool.or_eq_true, Bool.and_eq_true, decide_eq_true_eq, beq_iff_eq] at hs
      omega
    simp [decBytes_cons, h43, h37]
  · rw [if_neg hs]
    by_cases h32 : b = 32
    · subst h32
      simp [decBytes_cons]
    · rw [if_neg h32]
      have hdiv : b / 16 < 16 := by omega
      have hmod : b % 16 < 16 := by omega
      have hb16 : 16 * (b / 16) + b % 16 = b := by omega
      simp [decBytes_cons, hexVal_hexDigit _ hdiv, hexVal_hexDigit _ hmod, hb16]

theorem decBytes_encBytes (s : RStr) (h : WFStr s) :
    decBytes (encBytes s) = some s := by
  induction s with
  | nil => rfl
  | cons b t ih =>
      have hb : b < 256 := h b (List.mem_cons_self b t)
      have ht : WFStr t := fun x hx => h x (List.mem_cons_of_mem b hx)
      have henc : encBytes (b :: t) = encByte b ++ encBytes t := by
        simp [encBytes]
      rw [henc, decBytes_encByte b hb, ih ht]
      rfl

theorem amp_not_mem_encBytes (s : RStr) (h : WFStr s) : 38 ∉ encBytes s := by
  induction s with
  | nil => simp [encBytes]
  | cons b t ih =>
      have hb : b < 256 := h b (List.mem_cons_self b t)
      have ht : WFStr t := fun x hx => h x (List.mem_cons_of_mem b hx)
      have : encBytes (b :: t) = encByte b ++ encBytes t := by simp [encBytes]
      rw [this]
      intro hmem
      rcases List.mem_append.mp hmem with h1 | h2
      · exact amp_not_mem_encByte b hb h1
      · exact ih ht h2

theorem eq_not_mem_encBytes (s : RStr) (h : WFStr s) : 61 ∉ encBytes s := by
  induction s with
  | nil => simp [encBytes]
  | cons b t ih =>
      have hb : b < 256 := h b (List.mem_cons_self b t)
      have ht : WFStr t := fun x hx => h x (List.mem_cons_of_mem b hx)
      have : encBytes (b :: t) = encByte b ++ encBytes t := by simp [encBytes]
      rw [this]
      intro hmem
      rcases List.mem_append.mp hmem with h1 | h2
      · exact eq_not_mem_encByte b hb h1
      · exact ih ht h2

theorem amp_not_mem_encodePair (p : RStr × RStr) (h1 : WFStr p.1) (h2 : WFStr p.2) :
    38 ∉ encodePair p := by
  unfold encodePair
  intro hmem
  rcases List.mem_append.mp hmem with ha | hb
  · exact amp_not_mem_encBytes p.1 h1 ha
  · rcases List.mem_cons.mp hb with he | ht
    · omega
    · exact amp_not_mem_encBytes p.2 h2 ht

theorem encodePair_ne_nil (p : RStr × RStr) : encodePair p ≠ [] := by
  unfold encodePair
  cases h : encBytes p.1 <;> simp

theorem splitFirst_append (sep : Nat) (xs ys : RStr) (h : sep ∉ xs) :
    splitFirst sep (xs ++ sep :: ys) = some (xs, ys) := by
  induction xs with
  | nil => simp [splitFirst]
  | cons c cs ih =>
      have hc : ¬ c = sep := fun hcc => h (hcc ▸ List.mem_cons_self c cs)
      have hcs : sep ∉ cs := fun hm => h (List.mem_cons_of_mem c hm)
      simp [splitFirst, hc, ih hcs]

theorem parsePair_encodePair (p : RStr × RStr) (h1 : WFStr p.1) (h2 : WFStr p.2) :
    parsePair (encodePair p) = some p := by
  unfold parsePair encodePair
  rw [splitFirst_append 61 (encBytes p.1) (encBytes p.2) (eq_not_mem_encBytes p.1 h1)]
  simp [decBytes_encBytes p.1 h1, decBytes_encBytes p.2 h2]

theorem splitSep_no_sep (sep : Nat) (xs : RStr) (h : sep ∉ xs) :
    splitSep sep xs = [xs] := by
  induction xs with
  | nil => rfl
  | cons c cs ih =>
      have hc : ¬ c = sep := fun hcc => h (hcc ▸ List.mem_cons_self c cs)
      have hcs : sep ∉ cs := fun hm => h (List.mem_cons_of_mem c hm)
      simp [splitSep, hc, ih hcs]

theorem splitSep_append (sep : Nat) (xs t : RStr) (h : sep ∉ xs) :
    splitSep sep (xs ++ sep :: t) = xs :: splitSep sep t := by
  induction xs with
  | nil => simp [splitSep]
  | cons c cs ih =>
      have hc : ¬ c = sep := fun hcc => h (hcc ▸ List.mem_cons_self c cs)
      have hcs : sep ∉ cs := fun hm => h (List.mem_cons_of_mem c hm)
      simp [splitSep, hc, ih hcs]

theorem splitSep_encodeQuery (ps : List (RStr × RStr)) (hps : ps ≠ [])
    (hWF : WFParams ps) :
    splitSep 38 (encodeQuery ps) = ps.map encodePair := by
  induction ps with
  | nil => exact absurd rfl hps
  | cons p rest ih =>
      have hp := hWF p (List.mem_cons_self p rest)
      cases rest with
      | nil =>
          have : encodeQuery [p] = encodePair p := rfl
          rw [this]
          rw [splitSep_no_sep 38 (encodePair p) (amp_not_mem_encodePair p hp.1 hp.2)]
          rfl
      | cons q rest2 =>
          have hrest : WFParams (q :: rest2) := fun x hx =>
            hWF x (List.mem_cons_of_mem p hx)
          have henc : encodeQuery (p :: q :: rest2) =
              encodePair p ++ 38 :: encodeQuery (q :: rest2) := rfl
          rw [henc,
            splitSep_append 38 (encodePair p) _ (amp_not_mem_encodePair p hp.1 hp.2),
            ih (by simp) hrest]
          rfl

theorem parsePairs_map_encodePair (ps : List (RStr × RStr)) (hWF : WFParams ps) :
    parsePairs (ps.map encodePair) = some ps := by
  induction ps with
  | nil => rfl
  | cons p rest ih =>
      have hp := hWF p (List.mem_cons_self p rest)
      have hrest : WFParams rest := fun x hx => hWF x (List.mem_cons_of_mem p hx)
      simp [parsePairs, parsePair_encodePair p hp.1 hp.2, ih hrest]

theorem encodeQuery_ne_nil (ps : List (RStr × RStr)) (hps : ps ≠ []) :
    encodeQuery ps ≠ [] := by
  cases ps with
  | nil => exact absurd rfl hps
  | cons p rest =>
      cases rest with
      | nil => exact encodePair_ne_nil p
      | cons q rest2 =>
          have : encodeQuery (p :: q :: rest2) =
              encodePair p ++ 38 :: encodeQuery (q :: rest2) := rfl
          rw [this]
          intro hnil
          exact encodePair_ne_nil p (List.append_eq_nil.mp hnil).1

theorem decodeQuery_encodeQuery (ps : List (RStr × RStr)) (hWF : WFParams ps) :
    decodeQuery (encodeQuery ps) = some ps := by
  cases hps : ps with
  | nil => rfl
  | cons p rest =>
      subst hps
      unfold decodeQuery
      rw [if_neg (encodeQuery_ne_nil (p :: rest) (by simp))]
      rw [splitSep_encodeQuery (p :: rest) (by simp) hWF]
      exact parsePairs_map_encodePair (p :: rest) hWF

/-! ## Lemmas: the parameter map -/

theorem getParam_insertParam_self (m : List (RStr × RStr)) (k v : RStr) :
    getParam (insertParam m k v) k = some v := by
  induction m with
  | nil => simp [insertParam, getParam]
  | cons p rest ih =>
      by_cases hp : p.1 = k
      · simp [insertParam, hp, getParam]
      · simp [insertParam, hp, getParam, ih]

theorem getParam_insertParam_other (m : List (RStr × RStr)) (k v k2 : RStr)
    (hne : k2 ≠ k) :
    getParam (insertParam m k v) k2 = getParam m k2 := by
  have hkk : ¬ k = k2 := fun hh => hne hh.symm
  induction m with
  | nil =>
      simp [insertParam, getParam, hkk]
  | cons p rest ih =>
      by_cases hp : p.1 = k
      · have hp2 : ¬ k = k2 := fun h => hne h.symm
        simp [insertParam, hp, getParam, hp2, hp ▸ hp2]
      · simp only [insertParam, if_neg hp, getParam]
        by_cases hq : p.1 = k2
        · simp [hq]
        · simp [hq, ih]

theorem countKey_eq_zero (m : List (RStr × RStr)) (k : RStr)
    (h : k ∉ m.map Prod.fst) : countKey m k = 0 := by
  induction m with
  | nil => rfl
  | cons p rest ih =>
      have hp : ¬ p.1 = k := by
        intro hh
        exact h (by simp [hh.symm])
      have hrest : k ∉ rest.map Prod.fst := fun hm => h (by simp [hm])
      simp [countKey, hp, ih hrest]

theorem keys_insertParam_of_mem (m : List (RStr × RStr)) (k v : RStr)
    (h : k ∈ m.map Prod.fst) :
    (insertParam m k v).map Prod.fst = m.map Prod.fst := by
  induction m with
  | nil => simp at h
  | cons p rest ih =>
      by_cases hp : p.1 = k
      · simp [insertParam, hp]
      · have hrest : k ∈ rest.map Prod.fst := by
          rcases List.mem_map.mp h with ⟨q, hq, hqe⟩
          rcases List.mem_cons.mp hq with hq1 | hq2
          · exact absurd (hq1 ▸ hqe) hp
          · exact List.mem_map.mpr ⟨q, hq2, hqe⟩
        simp [insertParam, hp, ih hrest]

theorem keys_insertParam_of_not_mem (m : List (RStr × RStr)) (k v : RStr)
    (h : k ∉ m.map Prod.fst) :
    (insertParam m k v).map Prod.fst = m.map Prod.fst ++ [k] := by
  induction m with
  | nil => simp [insertParam]
  | cons p rest ih =>
      have hp : ¬ p.1 = k := by
        intro hh
        exact h (by simp [hh.symm])
      have hrest : k ∉ rest.map Prod.fst := fun hm => h (by simp [hm])
      simp [insertParam, hp, ih hrest]

theorem keysNodup_insertParam (m : List (RStr × RStr)) (k v : RStr)
    (h : KeysNodup m) : KeysNodup (insertParam m k v) := by
  unfold KeysNodup at h ⊢
  by_cases hk : k ∈ m.map Prod.fst
  · rw [keys_insertParam_of_mem m k v hk]
    exact h
  · rw [keys_insertParam_of_not_mem m k v hk]
    refine List.Nodup.append h (List.nodup_singleton k) ?_
    intro a ha hb
    rw [List.mem_singleton] at hb
    exact hk (hb ▸ ha)

theorem countKey_insertParam (m : List (RStr × RStr)) (k v : RStr)
    (h : KeysNodup m) : countKey (insertParam m k v) k = 1 := by
  induction m with
  | nil => simp [insertParam, countKey]
  | cons p rest ih =>
      by_cases hp : p.1 = k
      · have hrest : k ∉ rest.map Prod.fst := by
          have := (List.nodup_cons.mp h).1
          simpa [hp] using this
        simp [insertParam, hp, countKey, countKey_eq_zero rest k hrest]
      · have hrest : KeysNodup rest := (List.nodup_cons.mp h).2
        simp [insertParam, hp, countKey, ih hrest]

theorem WFParams_insertParam (m : List (RStr × RStr)) (k v : RStr)
    (h : WFParams m) (hk : WFStr k) (hv : WFStr v) :
    WFParams (insertParam m k v) := by
  induction m with
  | nil =>
      intro p hp
      simp [insertParam] at hp
      simp [hp, hk, hv]
  | cons q rest ih =>
      have hq := h q (List.mem_cons_self q rest)
      have hrest : WFParams rest := fun x hx => h x (List.mem_cons_of_mem q hx)
      by_cases hqk : q.1 = k
      · intro p hp
        simp only [insertParam, if_pos hqk] at hp
        rcases List.mem_cons.mp hp with h1 | h2
        · simp [h1, hk, hv]
        · exact hrest p h2
      · intro p hp
        simp only [insertParam, if_neg hqk] at hp
        rcases List.mem_cons.mp hp with h1 | h2
        · exact h1 ▸ hq
        · exact ih hrest p h2

/-! ## Lemmas: builder steps -/

theorem setterStep_spec (b b2 : PixivRequestBuilder) (h : IsSetterStep b b2) :
    b2.request = b.request ∧
      ∃ k v, b2.params = insertParam b.params k v := by
  cases h with
  | date bb v hv =>
      unfold PixivRequestBuilder.date at hv
      cases hp : parseDate v with
      | none => rw [hp] at hv; exact absurd hv (by simp)
      | some d =>
          rw [hp] at hv
          have hb2 : b2 = b.raw_param (ascii ("date")) v := by
            injection hv with hv2
            exact hv2.symm
          subst hb2
          exact ⟨rfl, ascii ("date"), v, rfl⟩
  | show_r18 v => cases v <;> exact ⟨rfl, _, _, rfl⟩
  | include_stats v => cases v <;> exact ⟨rfl, _, _, rfl⟩
  | include_sanity_level v => cases v <;> exact ⟨rfl, _, _, rfl⟩
  | _ => exact ⟨rfl, _, _, rfl⟩

theorem reachable_headers (b : PixivRequestBuilder) (h : Reachable b) :
    b.request.headers = [("referer", "http://spapi.pixiv.net/")] := by
  induction h with
  | step b b2 hr hs ih =>
      rw [(setterStep_spec b b2 hs).1]
      exact ih
  | _ => rfl

/-! ## The claims -/

/-- Claim C1: for every builder state (well-formed bytes, unique keys in
the parameter map), the descriptor returned by `build` has a URL whose
query string, decoded by standard query-string parsing, is exactly the
builder's parameter map at build time — every key/value pair present, no
extra pairs, no parameter key appearing twice — and whose path component
equals the base URL's path component unchanged. -/
theorem c1_build_query_exact (b : PixivRequestBuilder)
    (hWF : WFParams b.params) (hND : KeysNodup b.params) :
    (b.build.url.query.bind decodeQuery) = some b.params ∧
    KeysNodup ((b.build.url.query.bind decodeQuery).getD []) ∧
    b.build.url.path = b.request.url.path := by
  have hq : b.build.url.query = some (encodeQuery b.params) := rfl
  have hd : (b.build.url.query.bind decodeQuery) = some b.params := by
    rw [hq]
    simpa using decodeQuery_encodeQuery b.params hWF
  refine ⟨hd, ?_, rfl⟩
  rw [hd]
  exact hND

/-- Witness for C1 at the concrete builder `user_works(42)`. -/
theorem c1_witness :
    WFParams (PixivRequestBuilder.user_works 42).params ∧
    KeysNodup (PixivRequestBuilder.user_works 42).params ∧
    ((PixivRequestBuilder.user_works 42).build.url.query.bind decodeQuery) =
      some (PixivRequestBuilder.user_works 42).params :=
  ⟨by decide, by decide,
    (c1_build_query_exact (PixivRequestBuilder.user_works 42)
      (by decide) (by decide)).1⟩

/-- Claim C2: `user_works(42)`, before any override, has exactly the
parameter map page=1, per_page=30, image_sizes=px_128x128,px480mw,large,
include_stats=true, include_sanity_level=true, and a base URL whose path
is /v1/users/42/works.json. -/
theorem c2_user_works_defaults :
    (PixivRequestBuilder.user_works 42).params =
      [(ascii ("page"), ascii ("1")),
       (ascii ("per_page"), ascii ("30")),
       (ascii ("image_sizes"), ascii ("px_128x128,px480mw,large")),
       (ascii ("include_stats"), ascii ("true")),
       (ascii ("include_sanity_level"), ascii ("true"))] ∧
    (PixivRequestBuilder.user_works 42).request.url.path =
      ascii ("/v1/users/42/works.json") := by
  refine ⟨by decide, by decide⟩

/-- Claim C3 (refuted by the code): the `per_page` setter inserts under
the parameter key `"value"`, not `"per_page"`, contradicting its own
documentation comment; at `user_works(42).per_page(7)` the `per_page`
parameter still holds the default `"30"` while a `"value"` parameter
holds `"7"`. -/
theorem c3_per_page_uses_value_key :
    (∀ (b : PixivRequestBuilder) (n : Nat),
        getParam (b.per_page n).params (ascii ("value")) = some (natToBytes n) ∧
        getParam (b.per_page n).params (ascii ("per_page")) =
          getParam b.params (ascii ("per_page"))) ∧
    getParam ((PixivRequestBuilder.user_works 42).per_page 7).params
        (ascii ("per_page")) = some (ascii ("30")) ∧
    getParam ((PixivRequestBuilder.user_works 42).per_page 7).params
        (ascii ("value")) = some (ascii ("7")) := by
  refine ⟨fun b n => ⟨getParam_insertParam_self _ _ _,
    getParam_insertParam_other _ _ _ _ (by decide)⟩, by decide, by decide⟩

/-- Claim C4: applying the same setter twice keeps only the second value
(last write wins): after `page(1).page(2)` the parameter map holds
page=2, holds the key `page` exactly once, and the built descriptor's
decoded query is that map; generally, re-inserting a key leaves the last
value. -/
theorem c4_last_write_wins (b : PixivRequestBuilder)
    (hWF : WFParams b.params) (hND : KeysNodup b.params) :
    getParam ((b.page 1).page 2).params (ascii ("page")) = some (ascii ("2")) ∧
    countKey ((b.page 1).page 2).params (ascii ("page")) = 1 ∧
    (((b.page 1).page 2).build.url.query.bind decodeQuery) =
      some ((b.page 1).page 2).params ∧
    (∀ k v1 v2,
      getParam (insertParam (insertParam b.params k v1) k v2) k = some v2) := by
  have h2 : natToBytes 2 = ascii ("2") := by decide
  refine ⟨?_, ?_, ?_, fun k v1 v2 => getParam_insertParam_self _ _ _⟩
  · simp only [PixivRequestBuilder.page, PixivRequestBuilder.raw_param]
    rw [getParam_insertParam_self, h2]
  · simp only [PixivRequestBuilder.page, PixivRequestBuilder.raw_param]
    exact countKey_insertParam _ _ _ (keysNodup_insertParam _ _ _ hND)
  · have hWF2 : WFParams ((b.page 1).page 2).params := by
      simp only [PixivRequestBuilder.page, PixivRequestBuilder.raw_param]
      exact WFParams_insertParam _ _ _
        (WFParams_insertParam _ _ _ hWF (by decide) (by decide))
        (by decide) (by decide)
    have hq : ((b.page 1).page 2).build.url.query =
        some (encodeQuery ((b.page 1).page 2).params) := rfl
    rw [hq]
    simpa using decodeQuery_encodeQuery _ hWF2

/-- Witness for C4 at the concrete builder `user_works(42)`. -/
theorem c4_witness :
    WFParams (PixivRequestBuilder.user_works 42).params ∧
    getParam (((PixivRequestBuilder.user_works 42).page 1).page 2).params
      (ascii ("page")) = some (ascii ("2")) :=
  ⟨by decide, (c4_last_write_wins _ (by decide) (by decide)).1⟩

/-- Claim C5: the date setter succeeds on "2018-2-22" (a `YYYY-M-D`
calendar date without zero-padding) and stores it under the `date`
parameter; on every string that does not parse — such as "not-a-date" —
it fails fatally (modelled `none`) before `build` is reached, without
setting the parameter. -/
theorem c5_date_validation (b : PixivRequestBuilder) :
    b.date (ascii ("2018-2-22")) =
      some (b.raw_param (ascii ("date")) (ascii ("2018-2-22"))) ∧
    b.date (ascii ("not-a-date")) = none ∧
    (∀ s, parseDate s = none → b.date s = none) ∧
    (∀ s b2, b.date s = some b2 →
      b2.params = insertParam b.params (ascii ("date")) s ∧
      b2.request = b.request) := by
  have h1 : parseDate (ascii ("2018-2-22")) = some (2018, 2, 22) := by decide
  have h2 : parseDate (ascii ("not-a-date")) = none := by decide
  refine ⟨?_, ?_, ?_, ?_⟩
  · unfold PixivRequestBuilder.date
    rw [h1]
  · unfold PixivRequestBuilder.date
    rw [h2]
  · intro s hs
    unfold PixivRequestBuilder.date
    rw [hs]
  · intro s b2 hsb
    unfold PixivRequestBuilder.date at hsb
    cases hp : parseDate s with
    | none =>
        rw [hp] at hsb
        exact absurd hsb (by simp)
    | some d =>
        rw [hp] at hsb
        injection hsb with hb2
        subst hb2
        exact ⟨rfl, rfl⟩

/-- Witness for C5 at the concrete builder `bad_words`. -/
theorem c5_witness :
    PixivRequestBuilder.bad_words.date (ascii ("not-a-date")) = none :=
  (c5_date_validation PixivRequestBuilder.bad_words).2.1

/-- Claim C6: `favorite_works_remove` accepts any finite id sequence:
over the empty sequence the `ids` parameter is present and equal to the
empty string, and the descriptor still builds; over [1,2,3] the built
descriptor's decoded query has ids=1,2,3 — the elements joined by `,` in
caller order with no trailing delimiter. -/
theorem c6_batch_ids :
    getParam (PixivRequestBuilder.favorite_works_remove []).params
      (ascii ("ids")) = some [] ∧
    ((PixivRequestBuilder.favorite_works_remove []).build.url.query.bind
        decodeQuery) =
      some [(ascii ("publicity"), ascii ("public")), (ascii ("ids"), [])] ∧
    getParam
      (((PixivRequestBuilder.favorite_works_remove [1, 2, 3]).build.url.query.bind
          decodeQuery).getD [])
      (ascii ("ids")) = some (ascii ("1,2,3")) ∧
    comma_delimited ([1, 2, 3].map natToBytes) = ascii ("1,2,3") := by
  refine ⟨by decide, by decide, by decide, by decide⟩

/-- Claim C7: for each enumerated option type, every variant maps to a
non-empty token and no two distinct variants of the same enum map to the
same token. -/
theorem c7_enum_tokens :
    (∀ x : Publicity, x.as_str ≠ []) ∧
    (∀ x y : Publicity, x.as_str = y.as_str → x = y) ∧
    (∀ x : RankingType, x.as_str ≠ []) ∧
    (∀ x y : RankingType, x.as_str = y.as_str → x = y) ∧
    (∀ x : RankingMode, x.as_str ≠ []) ∧
    (∀ x y : RankingMode, x.as_str = y.as_str → x = y) ∧
    (∀ x : SearchPeriod, x.as_str ≠ []) ∧
    (∀ x y : SearchPeriod, x.as_str = y.as_str → x = y) ∧
    (∀ x : SearchMode, x.as_str ≠ []) ∧
    (∀ x y : SearchMode, x.as_str = y.as_str → x = y) ∧
    (∀ x : SearchOrder, x.as_str ≠ []) ∧
    (∀ x y : SearchOrder, x.as_str = y.as_str → x = y) := by
  refine ⟨?_, ?_, ?_, ?_, ?_, ?_, ?_, ?_, ?_, ?_, ?_, ?_⟩ <;>
    first
      | (intro x; cases x <;> decide)
      | (intro x y; cases x <;> cases y <;> decide)

/-- Witness for C7 on concrete variants of `Publicity`. -/
theorem c7_witness :
    Publicity.Public = Publicity.Public ∧ Publicity.Public.as_str ≠ [] :=
  ⟨c7_enum_tokens.2.1 Publicity.Public Publicity.Public rfl,
    c7_enum_tokens.1 Publicity.Public⟩

/-- Claim C8 (refuted by the code): the `illustration` catalog
constructor is not output-free — its body contains a `println!`, so
calling it writes a line to standard output (the second component of the
model records the lines printed during the call). -/
theorem c8_illustration_prints :
    (PixivRequestBuilder.illustration 123).2 =
      [ascii ("uri:https://app-api.pixiv.net/v1/illust/detail")] ∧
    (PixivRequestBuilder.illustration 123).2 ≠ [] := by
  refine ⟨rfl, by decide⟩

/-- Claim C9: every builder produced by a catalog constructor — and any
refinement of one by setter calls, hence every descriptor built from
one — carries the fixed referer header `http://spapi.pixiv.net/` and no
authorization header. -/
theorem c9_referer_no_auth (b : PixivRequestBuilder) (h : Reachable b) :
    getHeader b.request.headers ("referer") = some ("http://spapi.pixiv.net/") ∧
    getHeader b.request.headers ("authorization") = none ∧
    getHeader b.build.headers ("referer") = some ("http://spapi.pixiv.net/") ∧
    getHeader b.build.headers ("authorization") = none := by
  have hh := reachable_headers b h
  have hb : b.build.headers = b.request.headers := rfl
  rw [hb, hh]
  refine ⟨by decide, by decide, by decide, by decide⟩

/-- Witness for C9 at the concrete builder `user_works(42)`. -/
theorem c9_witness :
    getHeader (PixivRequestBuilder.user_works 42).request.headers
      ("authorization") = none :=
  (c9_referer_no_auth _ (Reachable.user_works 42)).2.1

/-- Claim C10: every non-terminal setter (each typed setter and the raw
override) leaves the HTTP method, base URL and headers unchanged and
updates a single parameter key: the returned builder's map is the input
map with one key set, and every other key keeps its previous value. -/
theorem c10_setter_frame (b b2 : PixivRequestBuilder) (h : IsSetterStep b b2) :
    b2.request = b.request ∧
    ∃ k v, b2.params = insertParam b.params k v ∧
      getParam b2.params k = some v ∧
      ∀ k2, k2 ≠ k → getParam b2.params k2 = getParam b.params k2 := by
  obtain ⟨hreq, k, v, hp⟩ := setterStep_spec b b2 h
  refine ⟨hreq, k, v, hp, ?_, ?_⟩
  · rw [hp]
    exact getParam_insertParam_self _ _ _
  · intro k2 hk2
    rw [hp]
    exact getParam_insertParam_other _ _ _ _ hk2

/-- Witness for C10 at the concrete step `user_works(42).page(5)`. -/
theorem c10_witness :
    ((PixivRequestBuilder.user_works 42).page 5).request =
      (PixivRequestBuilder.user_works 42).request :=
  (c10_setter_frame _ _
    (IsSetterStep.page (PixivRequestBuilder.user_works 42) 5)).1

end Pixiv
